import Mathlib

/-!
# Verification of the MAPF-Planner test-harness excerpt

Shallow embedding of `arch_test/utils.py` and `arch_test/test_manager.py`
from the CRL-Technion/MAPF-Planner repository, together with a spec-level
model of the `Manager` component of `arch_components.manager`, which is
referenced by the tests but whose source is outside the excerpt.

Numeric message fields (Python floats that the harness only copies around,
never computes with) are modelled as rationals; values obtained through the
Python `float` builtin are modelled by `PyFloat` (an exact rational, a
signed infinity, or nan).  Side-effecting calls (publishing, sleeping,
issuing service requests, logging) are modelled as explicit event traces
returned by the embedded functions.
-/

namespace MAPF

/-- `geometry_msgs.msg.Vector3`: the three translation components used by the
harness.  The harness only stores and copies these values. -/
structure Vector3 where
  x : ℚ
  y : ℚ
  z : ℚ
deriving DecidableEq, Repr

/-- The header of a `TransformStamped` message: the fields the harness sets
(`header.stamp` via the clock, `header.frame_id`). -/
structure Header where
  stamp : ℕ
  frame_id : String
deriving DecidableEq, Repr

/-- The `transform` body of a `TransformStamped`: the harness only assigns
its `translation`. -/
structure Transform where
  translation : Vector3
deriving DecidableEq, Repr

/-- `tf2_ros.TransformStamped`, restricted to the fields the harness writes:
header (stamp and parent frame id), child frame id, and the translation. -/
structure TransformStamped where
  header : Header
  child_frame_id : String
  transform : Transform
deriving DecidableEq, Repr

/-- `arch_interfaces.msg.Position`: a goal position `{x, y, w}`. -/
structure Position where
  x : ℚ
  y : ℚ
  w : ℚ
deriving DecidableEq, Repr

/-- One path point of an `AssignedPath`: the harness reads
`point.translation.x` and `point.translation.z`. -/
structure PathPoint where
  translation : Vector3
deriving DecidableEq, Repr

/-- `arch_interfaces.msg.AssignedPath`: an agent id with its ordered path. -/
structure AssignedPath where
  agent_id : String
  path : List PathPoint
deriving DecidableEq, Repr

/-- `arch_interfaces.msg.AgentPaths`: the broadcast list of assigned paths. -/
structure AgentPaths where
  agent_paths : List AssignedPath
deriving DecidableEq, Repr

/-- `arch_interfaces.srv.AgentRequest.Request`: `agent_msg` and `agent_id`. -/
structure AgentRequestMsg where
  agent_msg : String
  agent_id : String
deriving DecidableEq, Repr

/-- `arch_interfaces.srv.AgentRequest.Response`: `error_msg` and `args`. -/
structure AgentResponse where
  error_msg : String
  args : List String
deriving DecidableEq, Repr

namespace ManagerRequestTypes

/-- Modelled from the spec: `arch_components.manager.ManagerRequestTypes`
is outside the excerpt; the spec lists the enumerated request types
`IDLE` and `AGENT_DISCONNECTED`.  The concrete string values are not
visible; only their distinctness matters to the harness. -/
def IDLE : String := "IDLE"

/-- Modelled from the spec: the `AGENT_DISCONNECTED` request type of
`arch_components.manager.ManagerRequestTypes` (see `IDLE`). -/
def AGENT_DISCONNECTED : String := "AGENT_DISCONNECTED"

end ManagerRequestTypes

namespace ManagerResponseTypes

/-- Modelled from the spec: `arch_components.manager.ManagerResponseTypes`
is outside the excerpt; the spec lists the enumerated response types
`WAIT_PLAN` and `RETRY`.  The concrete string values are not visible;
only their distinctness matters to the harness. -/
def WAIT_PLAN : String := "WAIT_PLAN"

/-- Modelled from the spec: the `RETRY` response type of
`arch_components.manager.ManagerResponseTypes` (see `WAIT_PLAN`). -/
def RETRY : String := "RETRY"

end ManagerResponseTypes

/-! ## Python `float` builtin on strings

`AgentTestExecutor.request_and_wait_for_response` evaluates
`float(response.args[0])`.  `float` is the Python builtin; we model its
acceptance of ASCII strings in full: surrounding whitespace, an optional
sign, case-insensitive `inf`/`infinity`/`nan`, and decimal notation with
an optional fractional point, an optional decimal exponent, and
underscore digit grouping (an underscore is legal only between two
digits).  `none` models `ValueError`.  Finite results are kept as exact
rationals: the model does not round to binary floating point and does not
saturate huge exponents to infinity, which never changes acceptance. -/

/-- The value of a Python `float`, as the embedding keeps it: an exact
rational, a signed infinity, or `nan`. -/
inductive PyFloat where
  | finite (q : ℚ)
  | pinf
  | ninf
  | nan
deriving DecidableEq, Repr

/-- Negation of a parsed `PyFloat`, for a leading minus sign
(`float("-nan")` is still `nan`). -/
def PyFloat.neg : PyFloat → PyFloat
  | .finite q => .finite (-q)
  | .pinf => .ninf
  | .ninf => .pinf
  | .nan => .nan

/-- Value of a list of decimal digit characters, most significant first. -/
def digitsToNat (cs : List Char) : ℕ :=
  cs.foldl (fun a c => 10 * a + (c.toNat - 48)) 0

/-- Whitespace characters stripped by Python's `float` before parsing
(space, tab, newline, carriage return, vertical tab, form feed). -/
def isPySpace (c : Char) : Bool :=
  c = ' ' ∨ c = '\t' ∨ c = '\n' ∨ c = '\r' ∨ c = '\x0B' ∨ c = '\x0C'

/-- Strip leading and trailing whitespace from a character list. -/
def pyStrip (cs : List Char) : List Char :=
  ((cs.dropWhile isPySpace).reverse.dropWhile isPySpace).reverse

/-- ASCII case folding for the letters of `inf`, `infinity` and `nan`. -/
def foldC (c : Char) : Char :=
  match c with
  | 'I' => 'i'
  | 'N' => 'n'
  | 'F' => 'f'
  | 'A' => 'a'
  | 'T' => 't'
  | 'Y' => 'y'
  | c => c

/-- A digit or a grouping underscore (the characters a digit run of
Python float literal grammar may contain). -/
def isDigitOrUnd (c : Char) : Bool := c.isDigit || c = '_'

/-- Tail check of a grouped digit run: every underscore is followed by a
digit and every other character is a digit. -/
def digitsGrouped : List Char → Bool
  | [] => true
  | ['_'] => false
  | '_' :: d :: rest => d.isDigit && digitsGrouped rest
  | c :: rest => c.isDigit && digitsGrouped rest

/-- A well-formed grouped digit run: non-empty, starts with a digit, and
every underscore sits between two digits (PEP 515). -/
def groupOk (cs : List Char) : Bool :=
  match cs with
  | [] => false
  | c :: _ => c.isDigit && digitsGrouped cs

/-- Remove grouping underscores before reading the digits. -/
def stripUnd (cs : List Char) : List Char := cs.filter (· ≠ '_')

/-- Exponent part of a Python float literal, after the `e`/`E`: an
optional sign and a grouped digit run. -/
def parseExp (cs : List Char) : Option ℤ :=
  match cs with
  | '+' :: r => if groupOk r then some (digitsToNat (stripUnd r) : ℤ) else none
  | '-' :: r => if groupOk r then some (-(digitsToNat (stripUnd r) : ℤ)) else none
  | r => if groupOk r then some (digitsToNat (stripUnd r) : ℤ) else none

/-- Unsigned numeric part of the model of Python's `float`: grouped
digits, an optional point with grouped fraction digits, at least one
mantissa digit, and an optional exponent. -/
def pyFloatNum (cs : List Char) : Option ℚ :=
  let intRaw := cs.takeWhile isDigitOrUnd
  if intRaw ≠ [] ∧ ¬ groupOk intRaw then none else
  let intDigits := stripUnd intRaw
  match cs.dropWhile isDigitOrUnd with
  | [] => if intDigits = [] then none else some (digitsToNat intDigits : ℚ)
  | '.' :: rest2 =>
    let fracRaw := rest2.takeWhile isDigitOrUnd
    if fracRaw ≠ [] ∧ ¬ groupOk fracRaw then none else
    let fracDigits := stripUnd fracRaw
    if intDigits = [] ∧ fracDigits = [] then none else
    let mant : ℚ :=
      (digitsToNat intDigits : ℚ) + (digitsToNat fracDigits : ℚ) / (10 ^ fracDigits.length)
    match rest2.dropWhile isDigitOrUnd with
    | [] => some mant
    | 'e' :: r => (parseExp r).map (fun ex => mant * (10 : ℚ) ^ ex)
    | 'E' :: r => (parseExp r).map (fun ex => mant * (10 : ℚ) ^ ex)
    | _ => none
  | 'e' :: r =>
    if intDigits = [] then none
    else (parseExp r).map (fun ex => (digitsToNat intDigits : ℚ) * (10 : ℚ) ^ ex)
  | 'E' :: r =>
    if intDigits = [] then none
    else (parseExp r).map (fun ex => (digitsToNat intDigits : ℚ) * (10 : ℚ) ^ ex)
  | _ => none

/-- The de-signed body of a Python `float` string: case-insensitive
`inf`/`infinity`/`nan`, or a numeric literal. -/
def pyFloatSigned (cs : List Char) : Option PyFloat :=
  let folded := cs.map foldC
  if folded = ['i', 'n', 'f'] ∨ folded = ['i', 'n', 'f', 'i', 'n', 'i', 't', 'y'] then
    some PyFloat.pinf
  else if folded = ['n', 'a', 'n'] then some PyFloat.nan
  else (pyFloatNum cs).map PyFloat.finite

/-- Model of the Python builtin `float` on ASCII strings: strips
whitespace, handles an optional sign, then the signed body; `none` models
`ValueError`. -/
def pyFloat (s : String) : Option PyFloat :=
  match pyStrip s.data with
  | '-' :: r => (pyFloatSigned r).map PyFloat.neg
  | '+' :: r => pyFloatSigned r
  | r => pyFloatSigned r

/-- `float(response.args[0])` from
`AgentTestExecutor.request_and_wait_for_response`: `none` models the
exception (IndexError on empty `args`, ValueError on a bad string). -/
def retryDelay (r : AgentResponse) : Option PyFloat :=
  match r.args with
  | [] => none
  | a :: _ => pyFloat a

/-! ## AgentTestExecutor -/

/-- `arch_test.utils.AgentTestExecutor`: the state the embedded methods
read is the `agent_id` fixed at construction. -/
structure AgentTestExecutor where
  agent_id : String
deriving DecidableEq, Repr

/-- An observable side effect of `request_and_wait_for_response`:
a `sleep(d)` call, or one service request `cli.call(AgentRequest.Request
(agent_msg, agent_id))` carrying the shown fields. -/
inductive ExecEvent where
  | sleep (d : PyFloat)
  | request (agent_msg : String) (agent_id : String)
deriving DecidableEq, Repr

/-- Outcome of the retry loop of `request_and_wait_for_response`:
`done r` models a normal return with final response `r`; `fail` models an
uncaught IndexError/ValueError from `float(response.args[0])`; `fuelOut`
means the loop was still running when the iteration budget ran out. -/
inductive LoopResult where
  | done (r : AgentResponse)
  | fail
  | fuelOut
deriving DecidableEq, Repr

/-- The ready-wait loop `while not self.cli.service_is_ready(): sleep(0.1)`.
`ready k` is the value of `service_is_ready()` at its `k`-th evaluation;
`fuel` bounds the number of sleeps.  Returns the sleep events performed, or
`none` when the service never became ready within the budget. -/
def waitForService (ready : ℕ → Bool) : ℕ → ℕ → Option (List ExecEvent)
  | k, 0 => if ready k then some [] else none
  | k, fuel + 1 =>
    if ready k then some []
    else (waitForService ready (k + 1) fuel).map (ExecEvent.sleep (PyFloat.finite (1 / 10)) :: ·)

/-- The call-and-retry part of `request_and_wait_for_response`:
`response = self.cli.call(req)` followed by
`while response.error_msg == RETRY: sleep(float(response.args[0]));
response = self.cli.call(req)`.  `resp k` is the server's response to the
`k`-th request issued; `fuel` bounds the number of requests.  Returns the
event trace and the loop outcome. -/
def callAndRetry (req : AgentRequestMsg) (resp : ℕ → AgentResponse) :
    ℕ → ℕ → List ExecEvent × LoopResult
  | _, 0 => ([], LoopResult.fuelOut)
  | k, fuel + 1 =>
    let r := resp k
    let ev := ExecEvent.request req.agent_msg req.agent_id
    if r.error_msg = ManagerResponseTypes.RETRY then
      match retryDelay r with
      | none => ([ev], LoopResult.fail)
      | some d =>
        let rest := callAndRetry req resp (k + 1) fuel
        (ev :: ExecEvent.sleep d :: rest.1, rest.2)
    else ([ev], LoopResult.done r)

/-- `AgentTestExecutor.request_and_wait_for_response(agent_msg)`:
waits for the service, then runs the call-and-retry loop with the request
`AgentRequest.Request(agent_msg=agent_msg, agent_id=self.agent_id)`. -/
def request_and_wait_for_response (ex : AgentTestExecutor) (agent_msg : String)
    (ready : ℕ → Bool) (resp : ℕ → AgentResponse)
    (readyFuel loopFuel : ℕ) : List ExecEvent × LoopResult :=
  match waitForService ready 0 readyFuel with
  | none => ([], LoopResult.fuelOut)
  | some sleeps =>
    let run := callAndRetry ⟨agent_msg, ex.agent_id⟩ resp 0 loopFuel
    (sleeps ++ run.1, run.2)

/-! ## AgentTestExecutor.sol_callback -/

/-- Python `str((a, b))` on the pair of two numeric components, as used in
the list comprehension of `sol_callback`. -/
def pairStr (a b : ℚ) : String :=
  "(" ++ toString a ++ ", " ++ toString b ++ ")"

/-- `str((point.translation.x, point.translation.z))` for one path point. -/
def pointStr (p : PathPoint) : String :=
  pairStr p.translation.x p.translation.z

/-- `'-->'.join([str((point.translation.x, point.translation.z)) for point
in assigned_path.path])`. -/
def stringSolution (path : List PathPoint) : String :=
  String.intercalate "-->" (path.map pointStr)

/-- The log line `f"PATH PUBLISHED FOR {self.agent_id}: {string_solution}"`. -/
def pathFoundMsg (agent_id : String) (path : List PathPoint) : String :=
  "PATH PUBLISHED FOR " ++ agent_id ++ ": " ++ stringSolution path

/-- The log line `f"NO PATH PUBLISHED FOR {self.agent_id}"`. -/
def pathNotFoundMsg (agent_id : String) : String :=
  "NO PATH PUBLISHED FOR " ++ agent_id

/-- The linear scan of `sol_callback` over `msg.agent_paths`: at the first
entry whose `agent_id` equals the executor's, it logs the path message and
returns; if the loop falls through, it logs the not-found message.
Returns the list of emitted log lines in order. -/
def sol_callback_scan (ex : AgentTestExecutor) : List AssignedPath → List String
  | [] => [pathNotFoundMsg ex.agent_id]
  | ap :: rest =>
    if ap.agent_id = ex.agent_id then [pathFoundMsg ex.agent_id ap.path]
    else sol_callback_scan ex rest

/-- `AgentTestExecutor.sol_callback(msg)`: scans `msg.agent_paths`. -/
def sol_callback (ex : AgentTestExecutor) (msg : AgentPaths) : List String :=
  sol_callback_scan ex msg.agent_paths

/-! ## FixedFrameBroadcaster -/

/-- `arch_test.utils.FixedFrameBroadcaster` (identical class in
`test_manager.py`): the constructor stores `parent_frame_id` as
`parent_id`, `child_frame_id` as `child_id`, and `pos`. -/
structure FixedFrameBroadcaster where
  parent_id : String
  child_id : String
  pos : Vector3
deriving DecidableEq, Repr

/-- `FixedFrameBroadcaster.broadcast_timer_callback`, invoked at clock
value `now`: builds one `TransformStamped` from the stored fields and
sends it.  The returned list is the messages sent by this tick. -/
def broadcast_timer_callback (b : FixedFrameBroadcaster) (now : ℕ) :
    List TransformStamped :=
  [{ header := { stamp := now, frame_id := b.parent_id }
     child_frame_id := b.child_id
     transform := { translation := { x := b.pos.x, y := b.pos.y, z := b.pos.z } } }]

/-- The tick-independent payload of an emitted transform: everything except
the stamp. -/
def transformPayload (t : TransformStamped) : String × String × Vector3 :=
  (t.header.frame_id, t.child_frame_id, t.transform.translation)

/-! ## GoalPublisher -/

/-- `arch_test.utils.GoalPublisher`: holds only its publisher handle; the
embedded state carries no mutable data. -/
structure GoalPublisher where
deriving DecidableEq, Repr

/-- `GoalPublisher.publish_goal(goal)`: calls `self.publisher.publish(goal)`
once.  Returns the (unchanged) publisher state and the list of messages
this call put on the goal channel. -/
def publish_goal (g : GoalPublisher) (goal : Position) :
    GoalPublisher × List Position :=
  (g, [goal])

/-! ## Manager (spec-modelled) -/

/-- Modelled from the spec: `arch_components.manager.Manager` is outside
the excerpt.  Per the spec's data model it holds `unassigned_agents` (an
ordered collection of agent identifiers awaiting path assignment),
`unassigned_goals` (ordered collection of unassigned goal positions), and a
possibly-absent computed plan (the spec's "no computed plan yet" state). -/
structure Manager where
  unassigned_agents : List String
  unassigned_goals : List Position
  computed_plan : Option (List AssignedPath)
deriving DecidableEq, Repr

/-- Modelled from the spec: `Manager.agent_callback` is outside the
excerpt.  Per the spec: "An agent transitions into `unassigned_agents` on
an `IDLE` request and is removed on `AGENT_DISCONNECTED`", an `IDLE` id
appears exactly once afterwards, and "a client request for an agent with
goals pending but no computed plan yet receives a `WAIT_PLAN` response,
and the goal remains unassigned afterward".  Branches the spec does not
constrain (the response to a disconnect, to an `IDLE` with no pending
goals or with a plan, or to an unrecognised request type) return an
unconstrained empty response and leave the state otherwise unchanged. -/
def agent_callback (m : Manager) (req : AgentRequestMsg) :
    Manager × AgentResponse :=
  if req.agent_msg = ManagerRequestTypes.IDLE then
    let agents :=
      if req.agent_id ∈ m.unassigned_agents then m.unassigned_agents
      else m.unassigned_agents ++ [req.agent_id]
    let m' := { m with unassigned_agents := agents }
    if m.unassigned_goals ≠ [] ∧ m.computed_plan = none then
      (m', { error_msg := ManagerResponseTypes.WAIT_PLAN, args := [] })
    else
      (m', { error_msg := "", args := [] })
  else if req.agent_msg = ManagerRequestTypes.AGENT_DISCONNECTED then
    ({ m with unassigned_agents := m.unassigned_agents.filter (· ≠ req.agent_id) },
     { error_msg := "", args := [] })
  else
    (m, { error_msg := "", args := [] })

/-! ## Theorems -/

/-- The acceptance boundary of the `float` model on representative inputs:
plain and decimal numbers, exponent forms, case-insensitive infinities and
nan, and underscore grouping are accepted; empty, alphabetic, misplaced
underscores, bare or unfinished exponents, double points and double signs
are rejected. -/
theorem pyFloat_boundary_examples :
    pyFloat "1" = some (PyFloat.finite 1) ∧
    (pyFloat "0.5").isSome = true ∧
    (pyFloat "1e5").isSome = true ∧
    (pyFloat "1e-05").isSome = true ∧
    (pyFloat "1E+5").isSome = true ∧
    pyFloat "inf" = some PyFloat.pinf ∧
    pyFloat "Infinity" = some PyFloat.pinf ∧
    pyFloat "-inf" = some PyFloat.ninf ∧
    pyFloat "NaN" = some PyFloat.nan ∧
    pyFloat "1_0" = some (PyFloat.finite 10) ∧
    (pyFloat "6_2.5_0e1_0").isSome = true ∧
    (pyFloat " 12 ").isSome = true ∧
    (pyFloat "1.").isSome = true ∧
    (pyFloat ".5e1").isSome = true ∧
    pyFloat "" = none ∧
    pyFloat "abc" = none ∧
    pyFloat "1__0" = none ∧
    pyFloat "_1" = none ∧
    pyFloat "1_" = none ∧
    pyFloat "1e" = none ∧
    pyFloat "1e+" = none ∧
    pyFloat "1e_5" = none ∧
    pyFloat "1.2.3" = none ∧
    pyFloat "--1" = none ∧
    pyFloat "- 1" = none ∧
    pyFloat "." = none ∧
    pyFloat "in" = none ∧
    pyFloat "nan2" = none := by
  decide

/-- The two log lines of `sol_callback` are distinct: a found-path log is
never the not-found log (they differ in their first character). -/
theorem pathFoundMsg_ne_pathNotFoundMsg (a : String) (path : List PathPoint) :
    pathFoundMsg a path ≠ pathNotFoundMsg a := by
  intro h
  have hF : (pathFoundMsg a path).data.head? = some 'P' := rfl
  have hN : (pathNotFoundMsg a).data.head? = some 'N' := rfl
  rw [h, hN] at hF
  exact absurd hF (by decide)

/-- C5: `sol_callback` logs exactly one line: the path of the first entry of
`msg.agent_paths` whose `agent_id` equals the executor's (first match wins,
later entries contribute nothing), and the not-found line exactly when no
entry matches; the found-path line is never the not-found line. -/
theorem sol_callback_first_match (ex : AgentTestExecutor) (msg : AgentPaths) :
    sol_callback ex msg =
      (match msg.agent_paths.find? (fun ap => ap.agent_id == ex.agent_id) with
       | some ap => [pathFoundMsg ex.agent_id ap.path]
       | none => [pathNotFoundMsg ex.agent_id]) ∧
    ∀ path, pathFoundMsg ex.agent_id path ≠ pathNotFoundMsg ex.agent_id := by
  refine ⟨?_, fun path => pathFoundMsg_ne_pathNotFoundMsg ex.agent_id path⟩
  show sol_callback_scan ex msg.agent_paths = _
  induction msg.agent_paths with
  | nil => rfl
  | cons ap rest ih =>
    by_cases h : ap.agent_id = ex.agent_id
    · rw [List.find?_cons_of_pos _ (by simpa using h)]
      simp [sol_callback_scan, h]
    · rw [List.find?_cons_of_neg _ (by simpa using h)]
      simp [sol_callback_scan, h, ih]

/-- C10: the logged solution string is the '-->'-join of, in path order, the
pair of each point's translation `x` and translation `z`; it does not
depend on the translation `y` components (any two paths agreeing on the
`x` and `z` components produce the same string). -/
theorem stringSolution_from_x_z (path : List PathPoint) :
    stringSolution path =
      String.intercalate "-->"
        (path.map (fun p => pairStr p.translation.x p.translation.z)) ∧
    ∀ q : List PathPoint,
      path.map (fun p => (p.translation.x, p.translation.z)) =
        q.map (fun p => (p.translation.x, p.translation.z)) →
      stringSolution path = stringSolution q := by
  refine ⟨rfl, fun q h => ?_⟩
  have key : ∀ l : List PathPoint, l.map pointStr =
      (l.map (fun p => (p.translation.x, p.translation.z))).map
        (fun pr => pairStr pr.1 pr.2) := by
    intro l
    rw [List.map_map]
    rfl
  unfold stringSolution
  rw [key, key, h]

/-- C10 witness: two concrete paths differing only in their `y` components
produce identical logged solution strings. -/
theorem stringSolution_from_x_z_witness :
    stringSolution [⟨⟨1, 2, 3⟩⟩, ⟨⟨4, 5, 6⟩⟩] =
      stringSolution [⟨⟨1, 7, 3⟩⟩, ⟨⟨4, 8, 6⟩⟩] :=
  (stringSolution_from_x_z [⟨⟨1, 2, 3⟩⟩, ⟨⟨4, 5, 6⟩⟩]).2
    [⟨⟨1, 7, 3⟩⟩, ⟨⟨4, 8, 6⟩⟩] (by decide)

/-- C7: each timer tick of a `FixedFrameBroadcaster` emits exactly one
transform whose header frame id is the constructor's parent id, whose
child frame id is the constructor's child id, and whose translation is the
constructor's position; the payload (everything but the stamp) is
identical across all ticks. -/
theorem broadcast_timer_callback_static (b : FixedFrameBroadcaster) (now : ℕ) :
    broadcast_timer_callback b now =
      [{ header := { stamp := now, frame_id := b.parent_id }
         child_frame_id := b.child_id
         transform := { translation := b.pos } }] ∧
    ∀ now' : ℕ,
      (broadcast_timer_callback b now).map transformPayload =
        (broadcast_timer_callback b now').map transformPayload :=
  ⟨rfl, fun _ => rfl⟩

/-- C8: one call to `publish_goal` puts exactly the single message `goal`
on the goal channel and leaves the publisher's state unchanged. -/
theorem publish_goal_once (g : GoalPublisher) (goal : Position) :
    (publish_goal g goal).2 = [goal] ∧ (publish_goal g goal).1 = g :=
  ⟨rfl, rfl⟩

/-- Removing all occurrences of `a` leaves a list shorter by `count a`. -/
theorem length_filter_ne_count (l : List String) (a : String) :
    (l.filter (fun x => !decide (x = a))).length = l.length - l.count a := by
  induction l with
  | nil => rfl
  | cons x xs ih =>
    have hle : xs.count a ≤ xs.length := List.count_le_length a xs
    by_cases hx : x = a
    · subst hx
      simp [List.count_cons, ih]
    · simp [List.filter_cons, hx, List.count_cons, ih]
      omega

/-- C3: handling an `IDLE` request for an agent id not yet in
`unassigned_agents` leaves that id occurring exactly once in
`unassigned_agents`. -/
theorem idle_adds_unknown_agent (m : Manager) (a : String)
    (h : a ∉ m.unassigned_agents) :
    (agent_callback m
        { agent_msg := ManagerRequestTypes.IDLE, agent_id := a }).1.unassigned_agents.count a
      = 1 := by
  by_cases hc : m.unassigned_goals ≠ [] ∧ m.computed_plan = none <;>
    simp [agent_callback, h, hc, List.count_append, List.count_eq_zero.mpr h]

/-- C3 witness: an `IDLE` request for `"agent_1"` on a fresh manager leaves
`"agent_1"` exactly once in `unassigned_agents`. -/
theorem idle_adds_unknown_agent_witness :
    (agent_callback { unassigned_agents := [], unassigned_goals := [], computed_plan := none }
        { agent_msg := ManagerRequestTypes.IDLE, agent_id := "agent_1" }).1.unassigned_agents.count "agent_1"
      = 1 :=
  idle_adds_unknown_agent
    { unassigned_agents := [], unassigned_goals := [], computed_plan := none }
    "agent_1" (by decide)

/-- C4: handling an `AGENT_DISCONNECTED` request for an agent id present in
`unassigned_agents` removes the id, and the collection shrinks by exactly
the number of its occurrences, hence strictly. -/
theorem disconnect_removes_agent (m : Manager) (a : String)
    (h : a ∈ m.unassigned_agents) :
    a ∉ (agent_callback m
        { agent_msg := ManagerRequestTypes.AGENT_DISCONNECTED, agent_id := a }).1.unassigned_agents ∧
    (agent_callback m
        { agent_msg := ManagerRequestTypes.AGENT_DISCONNECTED, agent_id := a }).1.unassigned_agents.length
      = m.unassigned_agents.length - m.unassigned_agents.count a ∧
    (agent_callback m
        { agent_msg := ManagerRequestTypes.AGENT_DISCONNECTED, agent_id := a }).1.unassigned_agents.length
      < m.unassigned_agents.length := by
  have hpos : 0 < m.unassigned_agents.count a := List.count_pos_iff.mpr h
  have hle : m.unassigned_agents.count a ≤ m.unassigned_agents.length :=
    List.count_le_length a m.unassigned_agents
  refine ⟨?_, ?_, ?_⟩ <;>
    simp [agent_callback, ManagerRequestTypes.IDLE,
      ManagerRequestTypes.AGENT_DISCONNECTED, List.mem_filter,
      length_filter_ne_count]
  exact ⟨by omega, h⟩

/-- C4 witness: a disconnect request for `"agent_1"`, present in a
manager's `unassigned_agents`, removes it and shrinks the collection. -/
theorem disconnect_removes_agent_witness :
    "agent_1" ∉ (agent_callback
        { unassigned_agents := ["agent_1"], unassigned_goals := [], computed_plan := none }
        { agent_msg := ManagerRequestTypes.AGENT_DISCONNECTED, agent_id := "agent_1" }).1.unassigned_agents ∧
    (agent_callback
        { unassigned_agents := ["agent_1"], unassigned_goals := [], computed_plan := none }
        { agent_msg := ManagerRequestTypes.AGENT_DISCONNECTED, agent_id := "agent_1" }).1.unassigned_agents.length
      = (["agent_1"] : List String).length - (["agent_1"] : List String).count "agent_1" ∧
    (agent_callback
        { unassigned_agents := ["agent_1"], unassigned_goals := [], computed_plan := none }
        { agent_msg := ManagerRequestTypes.AGENT_DISCONNECTED, agent_id := "agent_1" }).1.unassigned_agents.length
      < (["agent_1"] : List String).length :=
  disconnect_removes_agent
    { unassigned_agents := ["agent_1"], unassigned_goals := [], computed_plan := none }
    "agent_1" (by decide)

/-- C6: with pending unassigned goals and no computed plan, an `IDLE`
request is answered with `WAIT_PLAN` and the unassigned goals are left
exactly as they were (the goal remains unassigned). -/
theorem idle_wait_plan (m : Manager) (a : String)
    (hg : m.unassigned_goals ≠ []) (hp : m.computed_plan = none) :
    (agent_callback m
        { agent_msg := ManagerRequestTypes.IDLE, agent_id := a }).2.error_msg
      = ManagerResponseTypes.WAIT_PLAN ∧
    (agent_callback m
        { agent_msg := ManagerRequestTypes.IDLE, agent_id := a }).1.unassigned_goals
      = m.unassigned_goals := by
  constructor <;> simp [agent_callback, hg, hp]

/-- C6 witness: with one pending goal and no plan, an `IDLE` request for
`"agent_1"` is answered `WAIT_PLAN` and the goal stays unassigned. -/
theorem idle_wait_plan_witness :
    (agent_callback
        { unassigned_agents := [], unassigned_goals := [⟨50, 50, 1⟩], computed_plan := none }
        { agent_msg := ManagerRequestTypes.IDLE, agent_id := "agent_1" }).2.error_msg
      = ManagerResponseTypes.WAIT_PLAN ∧
    (agent_callback
        { unassigned_agents := [], unassigned_goals := [⟨50, 50, 1⟩], computed_plan := none }
        { agent_msg := ManagerRequestTypes.IDLE, agent_id := "agent_1" }).1.unassigned_goals
      = [⟨50, 50, 1⟩] :=
  idle_wait_plan
    { unassigned_agents := [], unassigned_goals := [⟨50, 50, 1⟩], computed_plan := none }
    "agent_1" (by decide) rfl

/-- The ready-wait loop sleeps once per poll that reports not-ready and
stops at the first poll that reports ready. -/
theorem waitForService_spec (ready : ℕ → Bool) (m : ℕ) :
    ∀ k fuel, ready (k + m) = true → (∀ j < m, ready (k + j) = false) →
      m ≤ fuel →
      waitForService ready k fuel =
        some (List.replicate m (ExecEvent.sleep (PyFloat.finite (1 / 10)))) := by
  induction m with
  | zero =>
    intro k fuel hr _ _
    have hk : ready k = true := by simpa using hr
    cases fuel <;> simp [waitForService, hk]
  | succ n ih =>
    intro k fuel hr hnot hle
    have hk : ready k = false := by simpa using hnot 0 (Nat.succ_pos n)
    obtain ⟨f, rfl⟩ : ∃ f, fuel = f + 1 := ⟨fuel - 1, by omega⟩
    have hrec : waitForService ready (k + 1) f =
        some (List.replicate n (ExecEvent.sleep (PyFloat.finite (1 / 10)))) := by
      apply ih
      · have e : k + 1 + n = k + (n + 1) := by omega
        rw [e]
        exact hr
      · intro j hj
        have e : k + 1 + j = k + (j + 1) := by omega
        rw [e]
        exact hnot (j + 1) (by omega)
      · omega
    simp [waitForService, hk, hrec, List.replicate_succ]

/-- The call-and-retry loop: with retries (with their delays) up to the
first non-RETRY response, the trace is request, sleep, request, …,
request, and the loop returns the first non-RETRY response. -/
theorem callAndRetry_spec (req : AgentRequestMsg) (resp : ℕ → AgentResponse)
    (d : ℕ → PyFloat) (n : ℕ) :
    ∀ k fuel,
      (∀ j < n, (resp (k + j)).error_msg = ManagerResponseTypes.RETRY ∧
        retryDelay (resp (k + j)) = some (d (k + j))) →
      (resp (k + n)).error_msg ≠ ManagerResponseTypes.RETRY →
      n + 1 ≤ fuel →
      callAndRetry req resp k fuel =
        ((List.range n).flatMap (fun j =>
            [ExecEvent.request req.agent_msg req.agent_id,
             ExecEvent.sleep (d (k + j))]) ++
          [ExecEvent.request req.agent_msg req.agent_id],
         LoopResult.done (resp (k + n))) := by
  induction n with
  | zero =>
    intro k fuel _ hstop hfuel
    obtain ⟨f, rfl⟩ : ∃ f, fuel = f + 1 := ⟨fuel - 1, by omega⟩
    have hs : (resp k).error_msg ≠ ManagerResponseTypes.RETRY := by simpa using hstop
    simp [callAndRetry, hs]
  | succ n ih =>
    intro k fuel hretry hstop hfuel
    obtain ⟨f, rfl⟩ : ∃ f, fuel = f + 1 := ⟨fuel - 1, by omega⟩
    have h0 := hretry 0 (Nat.succ_pos n)
    have hR : (resp k).error_msg = ManagerResponseTypes.RETRY := by simpa using h0.1
    have hD : retryDelay (resp k) = some (d k) := by simpa using h0.2
    have hrec := ih (k + 1) f ?_ ?_ (by omega)
    · have hfun : (fun a => [ExecEvent.request req.agent_msg req.agent_id,
          ExecEvent.sleep (d (k + Nat.succ a))]) =
          (fun j => [ExecEvent.request req.agent_msg req.agent_id,
            ExecEvent.sleep (d (k + 1 + j))]) :=
        funext fun a => by rw [show k + Nat.succ a = k + 1 + a from by omega]
      have edone : k + (n + 1) = k + 1 + n := by omega
      rw [edone, List.range_succ_eq_map, List.flatMap_cons, List.flatMap_map, hfun]
      simp [callAndRetry, hR, hD, hrec]
    · intro j hj
      have e : k + 1 + j = k + (j + 1) := by omega
      rw [e]
      exact hretry (j + 1) (by omega)
    · have e : k + 1 + n = k + (n + 1) := by omega
      rw [e]
      exact hstop

/-- C1: `request_and_wait_for_response` first sleeps (0.1 s per poll) until
the service polls ready, then issues one request with the given
`agent_msg` and the executor's `agent_id`; on each RETRY response it
sleeps for the delay carried in the response's args and resends the same
request; it returns right after the first non-RETRY response, which it
takes as final. -/
theorem request_and_wait_for_response_spec (ex : AgentTestExecutor)
    (agent_msg : String) (ready : ℕ → Bool) (resp : ℕ → AgentResponse)
    (k0 n : ℕ) (d : ℕ → PyFloat) (readyFuel loopFuel : ℕ)
    (hready : ready k0 = true) (hnot : ∀ j < k0, ready j = false)
    (hretry : ∀ j < n, (resp j).error_msg = ManagerResponseTypes.RETRY ∧
      retryDelay (resp j) = some (d j))
    (hstop : (resp n).error_msg ≠ ManagerResponseTypes.RETRY)
    (hrf : k0 ≤ readyFuel) (hlf : n + 1 ≤ loopFuel) :
    request_and_wait_for_response ex agent_msg ready resp readyFuel loopFuel =
      (List.replicate k0 (ExecEvent.sleep (PyFloat.finite (1 / 10))) ++
        ((List.range n).flatMap (fun j =>
            [ExecEvent.request agent_msg ex.agent_id, ExecEvent.sleep (d j)]) ++
          [ExecEvent.request agent_msg ex.agent_id]),
       LoopResult.done (resp n)) := by
  have hw : waitForService ready 0 readyFuel =
      some (List.replicate k0 (ExecEvent.sleep (PyFloat.finite (1 / 10)))) := by
    apply waitForService_spec ready k0 0 readyFuel (by simpa using hready)
      (by simpa using hnot) hrf
  have hc := callAndRetry_spec ⟨agent_msg, ex.agent_id⟩ resp d n 0 loopFuel
    (by simpa using hretry) (by simpa using hstop) hlf
  simp [request_and_wait_for_response, hw, hc, Nat.zero_add]

/-- C1 witness: with the service ready from the second poll on and a server
that answers one RETRY (delay "1") and then WAIT_PLAN, the call sleeps
once waiting, requests, sleeps 1 s, re-requests, and returns the
WAIT_PLAN response. -/
theorem request_and_wait_for_response_spec_witness :
    request_and_wait_for_response ⟨"agent_1"⟩ ManagerRequestTypes.IDLE
        (fun k => 1 ≤ k)
        (fun k => if k = 0 then ⟨ManagerResponseTypes.RETRY, ["1"]⟩
                  else ⟨ManagerResponseTypes.WAIT_PLAN, []⟩) 3 4 =
      (List.replicate 1 (ExecEvent.sleep (PyFloat.finite (1 / 10))) ++
        ((List.range 1).flatMap (fun _ =>
            [ExecEvent.request ManagerRequestTypes.IDLE "agent_1",
             ExecEvent.sleep (PyFloat.finite 1)]) ++
          [ExecEvent.request ManagerRequestTypes.IDLE "agent_1"]),
       LoopResult.done ⟨ManagerResponseTypes.WAIT_PLAN, []⟩) :=
  request_and_wait_for_response_spec ⟨"agent_1"⟩ ManagerRequestTypes.IDLE
    (fun k => 1 ≤ k)
    (fun k => if k = 0 then ⟨ManagerResponseTypes.RETRY, ["1"]⟩
              else ⟨ManagerResponseTypes.WAIT_PLAN, []⟩)
    1 1 (fun _ => PyFloat.finite 1) 3 4
    (by decide) (by decide) (by decide) (by decide) (by decide) (by decide)

/-- C2: the retry loop has no attempt limit or escalation: when every
response is RETRY (with a parsable delay) it never finishes within any
iteration budget, and it terminates exactly at the first non-RETRY
response. -/
theorem retry_loop_termination (req : AgentRequestMsg) (resp : ℕ → AgentResponse)
    (hvalid : ∀ k, (resp k).error_msg = ManagerResponseTypes.RETRY →
      (retryDelay (resp k)).isSome) :
    ((∀ k, (resp k).error_msg = ManagerResponseTypes.RETRY) →
      ∀ fuel k, (callAndRetry req resp k fuel).2 = LoopResult.fuelOut) ∧
    (∀ n, (∀ j < n, (resp j).error_msg = ManagerResponseTypes.RETRY) →
      (resp n).error_msg ≠ ManagerResponseTypes.RETRY →
      (callAndRetry req resp 0 (n + 1)).2 = LoopResult.done (resp n)) := by
  constructor
  · intro hall fuel
    induction fuel with
    | zero => intro k; rfl
    | succ f ih =>
      intro k
      obtain ⟨v, hv⟩ := Option.isSome_iff_exists.mp (hvalid k (hall k))
      simp [callAndRetry, hall k, hv, ih (k + 1)]
  · intro n hr hstop
    have hd : ∀ j < n, retryDelay (resp j) = some ((retryDelay (resp j)).getD (PyFloat.finite 0)) := by
      intro j hj
      obtain ⟨v, hv⟩ := Option.isSome_iff_exists.mp (hvalid j (hr j hj))
      simp [hv]
    have hc := callAndRetry_spec req resp (fun j => (retryDelay (resp j)).getD (PyFloat.finite 0)) n 0 (n + 1)
      (fun j hj => by simpa using ⟨hr j hj, hd j hj⟩) (by simpa using hstop) le_rfl
    simp [hc]

/-- C2 witness: an all-RETRY server keeps the loop running at budget 7
(and any other), while a server that answers RETRY once and then
WAIT_PLAN terminates the loop with that response. -/
theorem retry_loop_termination_witness :
    (callAndRetry ⟨ManagerRequestTypes.IDLE, "agent_1"⟩
        (fun _ => ⟨ManagerResponseTypes.RETRY, ["1"]⟩) 0 7).2 = LoopResult.fuelOut ∧
    (callAndRetry ⟨ManagerRequestTypes.IDLE, "agent_1"⟩
        (fun k => if k = 0 then ⟨ManagerResponseTypes.RETRY, ["1"]⟩
                  else ⟨ManagerResponseTypes.WAIT_PLAN, []⟩) 0 2).2
      = LoopResult.done ⟨ManagerResponseTypes.WAIT_PLAN, []⟩ :=
  ⟨(retry_loop_termination ⟨ManagerRequestTypes.IDLE, "agent_1"⟩
      (fun _ => ⟨ManagerResponseTypes.RETRY, ["1"]⟩)
      (fun _ _ =>
        show (retryDelay ⟨ManagerResponseTypes.RETRY, ["1"]⟩).isSome = true by decide)).1
      (fun _ => rfl) 7 0,
   (retry_loop_termination ⟨ManagerRequestTypes.IDLE, "agent_1"⟩
      (fun k => if k = 0 then ⟨ManagerResponseTypes.RETRY, ["1"]⟩
                else ⟨ManagerResponseTypes.WAIT_PLAN, []⟩)
      (by
        intro k hk
        cases k with
        | zero =>
          show (retryDelay ⟨ManagerResponseTypes.RETRY, ["1"]⟩).isSome = true
          decide
        | succ k =>
          exact absurd hk
            (show ¬(ManagerResponseTypes.WAIT_PLAN = ManagerResponseTypes.RETRY)
              by decide))).2 1 (by decide) (by decide)⟩

/-- The retry loop hits the unguarded `float(response.args[0])` failure at
the first RETRY response whose delay does not parse, after any run of
well-formed RETRY responses. -/
theorem callAndRetry_fail_of (req : AgentRequestMsg) (resp : ℕ → AgentResponse)
    (n : ℕ) :
    ∀ k fuel,
      (∀ j < n, (resp (k + j)).error_msg = ManagerResponseTypes.RETRY ∧
        (retryDelay (resp (k + j))).isSome) →
      (resp (k + n)).error_msg = ManagerResponseTypes.RETRY →
      retryDelay (resp (k + n)) = none →
      n + 1 ≤ fuel →
      (callAndRetry req resp k fuel).2 = LoopResult.fail := by
  induction n with
  | zero =>
    intro k fuel _ hR hnone hfuel
    obtain ⟨f, rfl⟩ : ∃ f, fuel = f + 1 := ⟨fuel - 1, by omega⟩
    have hR' : (resp k).error_msg = ManagerResponseTypes.RETRY := by simpa using hR
    have hn' : retryDelay (resp k) = none := by simpa using hnone
    simp [callAndRetry, hR', hn']
  | succ n ih =>
    intro k fuel hretry hR hnone hfuel
    obtain ⟨f, rfl⟩ : ∃ f, fuel = f + 1 := ⟨fuel - 1, by omega⟩
    have h0 := hretry 0 (Nat.succ_pos n)
    have hR0 : (resp k).error_msg = ManagerResponseTypes.RETRY := by simpa using h0.1
    obtain ⟨v, hv⟩ := Option.isSome_iff_exists.mp (by simpa using h0.2)
    have hrec : (callAndRetry req resp (k + 1) f).2 = LoopResult.fail := by
      apply ih (k + 1) f ?_ ?_ ?_ (by omega)
      · intro j hj
        have e : k + 1 + j = k + (j + 1) := by omega
        rw [e]
        exact hretry (j + 1) (by omega)
      · have e : k + 1 + n = k + (n + 1) := by omega
        rw [e]
        exact hR
      · have e : k + 1 + n = k + (n + 1) := by omega
        rw [e]
        exact hnone
    simp [callAndRetry, hR0, hv, hrec]

/-- C9: `float(response.args[0])` is unguarded, but under the precondition
that every RETRY response carries non-empty args whose first element is a
parsable float string the failure branch is unreachable; a RETRY response
violating the precondition (empty args or an unparsable first element)
makes the call fail. -/
theorem retry_loop_unguarded_delay (req : AgentRequestMsg)
    (resp : ℕ → AgentResponse) :
    ((∀ k, (resp k).error_msg = ManagerResponseTypes.RETRY →
        ∃ a rest, (resp k).args = a :: rest ∧ (pyFloat a).isSome) →
      ∀ fuel k, (callAndRetry req resp k fuel).2 ≠ LoopResult.fail) ∧
    (∀ n, (∀ j < n, (resp j).error_msg = ManagerResponseTypes.RETRY ∧
        (retryDelay (resp j)).isSome) →
      (resp n).error_msg = ManagerResponseTypes.RETRY →
      retryDelay (resp n) = none →
      (callAndRetry req resp 0 (n + 1)).2 = LoopResult.fail) := by
  constructor
  · intro hpre fuel
    induction fuel with
    | zero => intro k; simp [callAndRetry]
    | succ f ih =>
      intro k
      by_cases hk : (resp k).error_msg = ManagerResponseTypes.RETRY
      · obtain ⟨a, rest, hargs, hsome⟩ := hpre k hk
        obtain ⟨v, hv⟩ := Option.isSome_iff_exists.mp hsome
        have hd : retryDelay (resp k) = some v := by simp [retryDelay, hargs, hv]
        simp [callAndRetry, hk, hd, ih (k + 1)]
      · simp [callAndRetry, hk]
  · intro n hr hR hnone
    apply callAndRetry_fail_of req resp n 0 (n + 1) (by simpa using hr)
      (by simpa using hR) (by simpa using hnone) le_rfl

/-- C9 witness: with well-formed RETRY responses the loop never fails,
while a RETRY response with empty args (after one well-formed RETRY)
makes the call fail. -/
theorem retry_loop_unguarded_delay_witness :
    (callAndRetry ⟨ManagerRequestTypes.IDLE, "agent_1"⟩
        (fun _ => ⟨ManagerResponseTypes.RETRY, ["1"]⟩) 0 3).2 ≠ LoopResult.fail ∧
    (callAndRetry ⟨ManagerRequestTypes.IDLE, "agent_1"⟩
        (fun k => if k = 0 then ⟨ManagerResponseTypes.RETRY, ["1"]⟩
                  else ⟨ManagerResponseTypes.RETRY, []⟩) 0 2).2 = LoopResult.fail :=
  ⟨(retry_loop_unguarded_delay ⟨ManagerRequestTypes.IDLE, "agent_1"⟩
      (fun _ => ⟨ManagerResponseTypes.RETRY, ["1"]⟩)).1
      (fun _ _ => ⟨"1", [], rfl, by decide⟩) 3 0,
   (retry_loop_unguarded_delay ⟨ManagerRequestTypes.IDLE, "agent_1"⟩
      (fun k => if k = 0 then ⟨ManagerResponseTypes.RETRY, ["1"]⟩
                else ⟨ManagerResponseTypes.RETRY, []⟩)).2
      1 (by decide) (by decide) (by decide)⟩

end MAPF
